import Mathlib

/-!
Verification development for the finance-bot command layer.

Shallow embedding of the repository sources:
- models.py : the ledger schema (User, Category, Transaction, TransactionType)
- app.py    : command parser, command handlers, and the webhook dispatch loop

Amounts are modelled as rationals, database rows as lists kept in insertion
order (the order in which an SQL session without an ORDER BY returns them),
and wall-clock timestamps as a logical tick stamped on every inserted row.
Fallible Python code (exceptions) is modelled with Option and Except:
a raised ValueError is the error branch of Except, and the IndexError a
handler can hit is an Option none.
-/

namespace FinanceBot

/-- TransactionType enum from models.py. -/
inductive TransactionType where
  | income
  | expense
  | asset_adjustment
deriving Repr, DecidableEq

/-- Value attribute of the Python enum member (models.py). -/
def TransactionType.value : TransactionType → String
  | .income => "income"
  | .expense => "expense"
  | .asset_adjustment => "asset_adjustment"

/-- Row of the users table (models.py, class User). -/
structure User where
  id : Nat
  whatsapp_number : String
  created_at : Nat
deriving Repr, DecidableEq

/-- Row of the categories table (models.py, class Category). -/
structure Category where
  id : Nat
  user_id : Nat
  name : String
  ty : TransactionType
  created_at : Nat
deriving Repr, DecidableEq

/-- Row of the transactions table (models.py, class Transaction). -/
structure Transaction where
  id : Nat
  user_id : Nat
  ty : TransactionType
  amount : ℚ
  category_id : Option Nat
  notes : Option String
  transaction_date : Nat
  created_at : Nat
deriving Repr, DecidableEq

/-- The persisted store: three tables, autoincrement counters, logical clock. -/
structure DBState where
  users : List User
  categories : List Category
  transactions : List Transaction
  nextUserId : Nat
  nextCategoryId : Nat
  nextTransactionId : Nat
  clock : Nat
deriving Repr, DecidableEq

/-- Freshly initialised store. -/
def emptyDB : DBState := ⟨[], [], [], 1, 1, 1, 0⟩

/-! Python string primitives used by app.py. -/

/-- Whitespace characters recognised by Python str.strip and str.split. -/
def isPySpace (c : Char) : Bool :=
  c == ' ' || c == '\t' || c == '\n' || c == '\x0b' || c == '\x0c' || c == '\r'

/-- Negation of isPySpace, used for token extraction. -/
def notPySpace (c : Char) : Bool := !isPySpace c

/-- Python str.strip with no argument: drop leading and trailing whitespace. -/
def pyStrip (s : String) : String :=
  String.mk (((s.data.dropWhile isPySpace).reverse.dropWhile isPySpace).reverse)

/-- Python str.lower (ASCII case folding suffices for the command tokens). -/
def pyLower (s : String) : String := String.mk (s.data.map Char.toLower)

/-- Python str.capitalize: first character upper-cased, the rest lower-cased. -/
def pyCapitalize (s : String) : String :=
  match s.data with
  | [] => ""
  | c :: r => String.mk (c.toUpper :: r.map Char.toLower)

/-- Python str.split(maxsplit=2): split on runs of whitespace into at most
three fields, the third being the verbatim remainder of the line (leading
separator whitespace removed, inner whitespace preserved). -/
def pySplitMax2 (s : String) : List String :=
  match s.data.dropWhile isPySpace with
  | [] => []
  | l1@(_ :: _) =>
    match (l1.dropWhile notPySpace).dropWhile isPySpace with
    | [] => [String.mk (l1.takeWhile notPySpace)]
    | r1@(_ :: _) =>
      match (r1.dropWhile notPySpace).dropWhile isPySpace with
      | [] => [String.mk (l1.takeWhile notPySpace), String.mk (r1.takeWhile notPySpace)]
      | r2@(_ :: _) =>
        [String.mk (l1.takeWhile notPySpace), String.mk (r1.takeWhile notPySpace),
         String.mk r2]

/-- Numeric value of a digit string. -/
def digitsToNat (ds : List Char) : Nat :=
  ds.foldl (fun a c => a * 10 + (c.toNat - 48)) 0

/-- Python int(s) on base-10 input: optional surrounding whitespace, optional
sign, then digits.  None models the raised ValueError. -/
def parseInt (s : String) : Option Int :=
  let l := (pyStrip s).data
  let p : Int × List Char :=
    match l with
    | '+' :: r => (1, r)
    | '-' :: r => (-1, r)
    | _ => (1, l)
  if p.2 ≠ [] ∧ p.2.all Char.isDigit then some (p.1 * digitsToNat p.2) else none

/-- Exponent part of a Python float literal; mant is the signed mantissa. -/
def parseFloatExp (mant : ℚ) : List Char → Option ℚ
  | [] => some mant
  | c :: r =>
    if c == 'e' || c == 'E' then
      let p : Int × List Char :=
        match r with
        | '+' :: t => (1, t)
        | '-' :: t => (-1, t)
        | _ => (1, r)
      if p.2 ≠ [] ∧ p.2.all Char.isDigit then
        some (mant * (10 : ℚ) ^ (p.1 * (digitsToNat p.2 : Int)))
      else none
    else none

/-- Python float(s) on decimal literals: optional surrounding whitespace,
optional sign, digits with an optional fractional part, optional exponent.
The special forms inf and nan never occur in this program and are omitted.
None models the raised ValueError. -/
def parseFloat (s : String) : Option ℚ :=
  let l := (pyStrip s).data
  let p : ℚ × List Char :=
    match l with
    | '+' :: r => (1, r)
    | '-' :: r => (-1, r)
    | _ => (1, l)
  let ip := p.2.takeWhile Char.isDigit
  let l2 := p.2.dropWhile Char.isDigit
  match l2 with
  | '.' :: r =>
    let fp := r.takeWhile Char.isDigit
    let l3 := r.dropWhile Char.isDigit
    if ip = [] ∧ fp = [] then none
    else
      parseFloatExp (p.1 * ((digitsToNat ip : ℚ) + (digitsToNat fp : ℚ) / (10 : ℚ) ^ fp.length)) l3
  | _ =>
    if ip = [] then none else parseFloatExp (p.1 * (digitsToNat ip : ℚ)) l2

/-- Floor of a rational as an integer. -/
def ratFloor (q : ℚ) : Int := Int.fdiv q.num (q.den : Int)

/-- Round to the nearest integer, ties to the even integer, as Python round
and string formatting do on halves. -/
def roundHalfEven (q : ℚ) : Int :=
  let f := ratFloor q
  let r := q - (f : ℚ)
  if r < 1 / 2 then f
  else if 1 / 2 < r then f + 1
  else if f % 2 = 0 then f else f + 1

/-- Group a digit list into blocks of three from the right. -/
def chunk3 : List Char → List (List Char)
  | [] => []
  | a :: b :: c :: d :: r => [a, b, c] :: chunk3 (d :: r)
  | l => [l]

/-- Insert thousands separators into a digit list. -/
def commaGroup (ds : List Char) : List Char :=
  (List.intercalate [','] (chunk3 ds.reverse)).reverse

/-- Left-pad a digit list with zeros to length k. -/
def padZeros (k : Nat) (ds : List Char) : List Char :=
  List.replicate (k - ds.length) '0' ++ ds

/-- Python format specification ",.Nf": fixed-point with N decimals, rounding
half to even, thousands separators in the integer part.  (Python renders a
negative value rounding to zero as -0; that corner is never reached here.) -/
def pyFormatComma (decimals : Nat) (q : ℚ) : String :=
  let scaled := roundHalfEven (q * (10 : ℚ) ^ decimals)
  let sign := if scaled < 0 then "-" else ""
  let a := scaled.natAbs
  let ip := a / 10 ^ decimals
  let fr := a % 10 ^ decimals
  sign ++ String.mk (commaGroup (toString ip).data) ++
    (if decimals = 0 then "" else "." ++ String.mk (padZeros decimals (toString fr).data))

/-! Query and insertion helpers shared by the handlers. -/

/-- Python truthiness of an optional string (None and the empty string are
falsy), as used by the display code of app.py. -/
def pyTruthy : Option String → Bool
  | some s => !s.isEmpty
  | none => false

/-- Resolution of the transaction.category ORM relationship: the category row
whose primary key the transaction references, if any. -/
def txCategory (st : DBState) (t : Transaction) : Option Category :=
  match t.category_id with
  | some cid => st.categories.find? (fun c => decide (c.id = cid))
  | none => none

/-- Append a transaction row with fresh id and current timestamps
(session.add of a Transaction in app.py). -/
def insertTransaction (st : DBState) (uid : Nat) (ty : TransactionType) (amount : ℚ)
    (cid : Option Nat) (notes : Option String) : DBState :=
  { st with
    transactions := st.transactions ++
      [{ id := st.nextTransactionId, user_id := uid, ty := ty, amount := amount,
         category_id := cid, notes := notes, transaction_date := st.clock,
         created_at := st.clock }],
    nextTransactionId := st.nextTransactionId + 1,
    clock := st.clock + 1 }

/-- get_or_create_user from app.py.  When the user is new the row is committed
immediately, so the returned state is durable even if the command later rolls
back. -/
def getOrCreateUser (st : DBState) (num : String) : DBState × User :=
  match st.users.find? (fun u => decide (u.whatsapp_number = num)) with
  | some u => (st, u)
  | none =>
    let u : User := { id := st.nextUserId, whatsapp_number := num, created_at := st.clock }
    ({ st with users := st.users ++ [u], nextUserId := st.nextUserId + 1,
               clock := st.clock + 1 }, u)

/-- parse_command from app.py: strip, split with maxsplit=2, lower-case the
command token.  None models the IndexError parts[0] raises on input that is
empty after stripping. -/
def parseCommand (messageText : String) : Option (String × List String) :=
  match pySplitMax2 (pyStrip messageText) with
  | [] => none
  | c :: rest => some (pyLower c, rest)

/-- The type-string validation shared verbatim by the three category handlers
in app.py (income and expense are the only category types). -/
def parseCategoryType (s : String) : Option TransactionType :=
  if s = "income" then some TransactionType.income
  else if s = "expense" then some TransactionType.expense
  else none

/-- The find-or-auto-create category step of handle_income and handle_expense
(query by (user, name, type); on a miss, add and flush a fresh row). -/
def findOrCreateCategory (st : DBState) (uid : Nat) (nm : String) (ty : TransactionType) :
    DBState × Category :=
  match st.categories.find? (fun c => decide (c.user_id = uid ∧ c.name = nm ∧ c.ty = ty)) with
  | some c => (st, c)
  | none =>
    let c : Category := { id := st.nextCategoryId, user_id := uid, name := nm, ty := ty,
                          created_at := st.clock }
    ({ st with categories := st.categories ++ [c], nextCategoryId := st.nextCategoryId + 1,
               clock := st.clock + 1 }, c)

/-! The command handlers of app.py.  Each returns Except: the error branch is
a raised ValueError (validation failure), the ok branch carries the session
state after the handler and the reply text. -/

/-- handle_income from app.py.  Note the source catches its own
ValueError("Amount must be positive.") in the same except clause as the float
conversion, so both bad parses and non-positive amounts surface as the
invalid-amount message. -/
def handleIncome (st : DBState) (u : User) (args : List String) :
    Except String (DBState × String) :=
  match args with
  | a0 :: a1 :: rest =>
    match parseFloat a0 with
    | none => .error "Invalid amount. Please provide a number."
    | some amount =>
      if amount ≤ 0 then .error "Invalid amount. Please provide a number."
      else
        let categoryName := pyLower a1
        let notes := rest.head?
        let fc := findOrCreateCategory st u.id categoryName TransactionType.income
        .ok (insertTransaction fc.1 u.id TransactionType.income amount (some fc.2.id) notes,
             "Income recorded: Rp" ++ pyFormatComma 2 amount ++ " for \x27" ++ fc.2.name ++
             "\x27. Notes: " ++ (match notes with | some n => n | none => "None") ++ ".")
  | _ => .error "Usage: /income <amount> <category> [notes]"

/-- handle_expense from app.py (textual duplicate of handle_income with the
expense type). -/
def handleExpense (st : DBState) (u : User) (args : List String) :
    Except String (DBState × String) :=
  match args with
  | a0 :: a1 :: rest =>
    match parseFloat a0 with
    | none => .error "Invalid amount. Please provide a number."
    | some amount =>
      if amount ≤ 0 then .error "Invalid amount. Please provide a number."
      else
        let categoryName := pyLower a1
        let notes := rest.head?
        let fc := findOrCreateCategory st u.id categoryName TransactionType.expense
        .ok (insertTransaction fc.1 u.id TransactionType.expense amount (some fc.2.id) notes,
             "Expense recorded: Rp" ++ pyFormatComma 2 amount ++ " for \x27" ++ fc.2.name ++
             "\x27. Notes: " ++ (match notes with | some n => n | none => "None") ++ ".")
  | _ => .error "Usage: /expense <amount> <category> [notes]"

/-- handle_add_category from app.py. -/
def handleAddCategory (st : DBState) (u : User) (args : List String) :
    Except String (DBState × String) :=
  match args with
  | a0 :: a1 :: _ =>
    match parseCategoryType (pyLower a0) with
    | none => .error "Invalid category type. Must be \x27income\x27 or \x27expense\x27."
    | some catTy =>
      let categoryName := pyLower a1
      match st.categories.find?
          (fun c => decide (c.user_id = u.id ∧ c.name = categoryName ∧ c.ty = catTy)) with
      | some _ =>
        .ok (st, "Category \x27" ++ categoryName ++ "\x27 (" ++ catTy.value ++
                 ") already exists.")
      | none =>
        .ok ({ st with
               categories := st.categories ++
                 [{ id := st.nextCategoryId, user_id := u.id, name := categoryName,
                    ty := catTy, created_at := st.clock }],
               nextCategoryId := st.nextCategoryId + 1, clock := st.clock + 1 },
             "Category \x27" ++ categoryName ++ "\x27 (" ++ catTy.value ++
             ") added successfully.")
  | _ => .error "Usage: /addcategory <type (income/expense)> <name>"

/-- handle_edit_category from app.py: renames the first matching
(user, old, type) row in place, with no check that the new name is free. -/
def handleEditCategory (st : DBState) (u : User) (args : List String) :
    Except String (DBState × String) :=
  match args with
  | a0 :: a1 :: a2 :: _ =>
    let oldName := pyLower a0
    let newName := pyLower a1
    match parseCategoryType (pyLower a2) with
    | none => .error "Invalid category type. Must be \x27income\x27 or \x27expense\x27."
    | some catTy =>
      match st.categories.find?
          (fun c => decide (c.user_id = u.id ∧ c.name = oldName ∧ c.ty = catTy)) with
      | none => .ok (st, "Category \x27" ++ oldName ++ "\x27 (" ++ catTy.value ++ ") not found.")
      | some category =>
        .ok ({ st with
               categories := st.categories.map
                 (fun c => if c.id = category.id then { c with name := newName } else c) },
             "Category \x27" ++ oldName ++ "\x27 (" ++ catTy.value ++ ") renamed to \x27" ++
             newName ++ "\x27.")
  | _ => .error "Usage: /editcategory <old_name> <new_name> <type (income/expense)>"

/-- handle_delete_category from app.py: refuse while any transaction still
references the category. -/
def handleDeleteCategory (st : DBState) (u : User) (args : List String) :
    Except String (DBState × String) :=
  match args with
  | a0 :: a1 :: _ =>
    let categoryName := pyLower a0
    match parseCategoryType (pyLower a1) with
    | none => .error "Invalid category type. Must be \x27income\x27 or \x27expense\x27."
    | some catTy =>
      match st.categories.find?
          (fun c => decide (c.user_id = u.id ∧ c.name = categoryName ∧ c.ty = catTy)) with
      | none =>
        .ok (st, "Category \x27" ++ categoryName ++ "\x27 (" ++ catTy.value ++ ") not found.")
      | some category =>
        match st.transactions.find? (fun t => decide (t.category_id = some category.id)) with
        | some _ =>
          .ok (st, "Cannot delete category \x27" ++ categoryName ++
                   "\x27 as it has existing transactions linked. " ++
                   "Please reassign or delete linked transactions first.")
        | none =>
          .ok ({ st with
                 categories := st.categories.filter (fun c => decide (c.id ≠ category.id)) },
               "Category \x27" ++ categoryName ++ "\x27 (" ++ catTy.value ++
               ") deleted successfully.")
  | _ => .error "Usage: /deletecategory <name> <type (income/expense)>"

/-- handle_asset_adjustment from app.py: any float accepted, sign preserved,
no category, notes default to a fixed string. -/
def handleAssetAdjustment (st : DBState) (u : User) (args : List String) :
    Except String (DBState × String) :=
  match args with
  | a0 :: rest =>
    match parseFloat a0 with
    | none => .error "Invalid amount. Please provide a number."
    | some amount =>
      let notes := match rest.head? with
        | some n => n
        | none => "Manual asset adjustment"
      .ok (insertTransaction st u.id TransactionType.asset_adjustment amount none (some notes),
           "Asset adjusted by Rp" ++ pyFormatComma 2 amount ++ ". Notes: " ++ notes ++ ".")
  | [] => .error "Usage: /asset <amount> [notes]"

/-- handle_delete_transaction from app.py: the row must both exist and belong
to the calling user, otherwise a not-found reply and no deletion. -/
def handleDeleteTransaction (st : DBState) (u : User) (args : List String) :
    Except String (DBState × String) :=
  match args with
  | a0 :: _ =>
    match parseInt a0 with
    | none =>
      .error "Invalid transaction ID. Please provide a number.\nUse /listall to see transaction IDs"
    | some tid =>
      match st.transactions.find? (fun t => decide ((t.id : Int) = tid ∧ t.user_id = u.id)) with
      | none =>
        .ok (st, "Transaction with ID " ++ toString tid ++
                 " not found or doesn\x27t belong to you.\nUse /listall to see your transactions.")
      | some t =>
        let details :=
          pyCapitalize t.ty.value ++ ": Rp" ++ pyFormatComma 2 t.amount ++
          (match txCategory st t with | some c => " (" ++ c.name ++ ")" | none => "") ++
          (if pyTruthy t.notes then " - " ++ t.notes.getD "" else "")
        .ok ({ st with transactions := st.transactions.filter (fun x => decide (x.id ≠ t.id)) },
             "✅ Transaction deleted successfully!\nDeleted: " ++ details)
  | [] =>
    .error "Usage: /delete <transaction_id>\nUse /listall to see transaction IDs"

/-- Modelled from the spec: strftime rendering of a wall-clock timestamp in
the short form used by /listall.  Calendar time is outside the logical-clock
embedding, so the tick is rendered directly; no claim depends on its shape. -/
def strftimeShort (tick : Nat) : String := toString tick

/-- Modelled from the spec: strftime rendering in the long form used by
/history; same caveat as strftimeShort. -/
def strftimeLong (tick : Nat) : String := toString tick

/-- Limit resolution of handle_list_all_transactions: default 20, positive,
clamped to 100; None models the caught ValueError path that makes the handler
reply with the invalid-limit message. -/
def resolveListAllLimit (args : List String) : Option Nat :=
  match args with
  | [] => some 20
  | a0 :: _ =>
    match parseInt a0 with
    | none => none
    | some l => if l ≤ 0 then none else if 100 < l then some 100 else some l.toNat

/-- Rows shown by /listall: the user's transactions newest-first, truncated to
the resolved limit.  Insertion order is transaction_date order, so newest
first is the reverse of the stored list. -/
def listAllRows (st : DBState) (uid : Nat) (limit : Nat) : List Transaction :=
  ((st.transactions.filter (fun t => decide (t.user_id = uid))).reverse).take limit

/-- Signed amount column of a /listall line: income and asset_adjustment get
a leading plus, expense a leading minus, around the stored value formatted
with ",.0f". -/
def listAllAmount (t : Transaction) : String :=
  if t.ty = TransactionType.income ∨ t.ty = TransactionType.asset_adjustment then
    "+Rp" ++ pyFormatComma 0 t.amount
  else
    "-Rp" ++ pyFormatComma 0 t.amount

/-- One display line of /listall for a transaction. -/
def listAllLine (st : DBState) (t : Transaction) : String :=
  "ID:" ++ toString t.id ++ " | " ++ strftimeShort t.transaction_date ++ " | " ++
  listAllAmount t ++
  (match txCategory st t with | some c => " | " ++ c.name | none => "") ++
  (if pyTruthy t.notes then
     let n := t.notes.getD ""
     " | " ++ (if 20 < n.length then n.take 20 ++ "..." else n)
   else "")

/-- Forty equals signs, the separator rows of the /listall reply. -/
def eqRow : String := String.mk (List.replicate 40 '=')

/-- handle_list_all_transactions from app.py. -/
def handleListAllTransactions (st : DBState) (u : User) (args : List String) :
    Except String (DBState × String) :=
  match resolveListAllLimit args with
  | none => .ok (st, "Invalid limit. Please provide a number (max 100).")
  | some limit =>
    let txs := listAllRows st u.id limit
    if txs.isEmpty then .ok (st, "No transactions found.")
    else
      .ok (st, String.intercalate "\n"
        (["📋 All Transactions (showing last " ++ toString txs.length ++ "):", eqRow] ++
         txs.map (listAllLine st) ++
         [eqRow, "💡 Use /delete <ID> to delete a transaction"]))

/-- One display line of /history for a transaction. -/
def historyLine (st : DBState) (t : Transaction) : String :=
  "• " ++ strftimeLong t.transaction_date ++ " | " ++ pyCapitalize t.ty.value ++ ": Rp" ++
  pyFormatComma 2 t.amount ++ " | " ++
  (match txCategory st t with | some c => c.name | none => "N/A") ++
  (if pyTruthy t.notes then " (" ++ t.notes.getD "" ++ ")" else "")

/-- handle_history from app.py: default count 5, positive, no upper clamp. -/
def handleHistory (st : DBState) (u : User) (args : List String) :
    Except String (DBState × String) :=
  let countRes : Option Nat :=
    match args with
    | [] => some 5
    | a0 :: _ =>
      match parseInt a0 with
      | none => none
      | some c => if c ≤ 0 then none else some c.toNat
  match countRes with
  | none => .ok (st, "Invalid count. Please provide a number.")
  | some count =>
    let txs := ((st.transactions.filter (fun t => decide (t.user_id = u.id))).reverse).take count
    if txs.isEmpty then .ok (st, "No transaction history found.")
    else
      .ok (st, String.intercalate "\n"
        ("Your recent transactions:" :: txs.map (historyLine st)))

/-- Per-type amount total of a transaction list for one user, the value of the
SQL sum query in handle_summary (an empty sum is coalesced to zero, matching
the source's or 0.0). -/
def sumAmounts (l : List Transaction) (uid : Nat) (ty : TransactionType) : ℚ :=
  ((l.filter (fun t => decide (t.user_id = uid ∧ t.ty = ty))).map Transaction.amount).sum

/-- The derived balance computed by handle_summary:
income minus expenses plus asset adjustments. -/
def currentAssets (st : DBState) (uid : Nat) : ℚ :=
  sumAmounts st.transactions uid TransactionType.income -
  sumAmounts st.transactions uid TransactionType.expense +
  sumAmounts st.transactions uid TransactionType.asset_adjustment

/-- handle_summary from app.py: reads only, never fails. -/
def handleSummary (st : DBState) (u : User) : DBState × String :=
  let totalIncome := sumAmounts st.transactions u.id TransactionType.income
  let totalExpense := sumAmounts st.transactions u.id TransactionType.expense
  (st, "Financial Summary for " ++ u.whatsapp_number ++ ":\n• Total Income: Rp" ++
       pyFormatComma 2 totalIncome ++ "\n• Total Expenses: Rp" ++
       pyFormatComma 2 totalExpense ++ "\n• Current Net Assets: Rp" ++
       pyFormatComma 2 (currentAssets st u.id))

/-- handle_report_data from app.py, reduced to what the dispatch loop
observes: period validation exactly as in the source, then whether the window
query returned any rows.  The monthly and weekly calendar windows anchored at
datetime.now are outside the logical-clock embedding; the model uses the
unbounded (all) window for the emptiness test. -/
def handleReportHasData (st : DBState) (u : User) (args : List String) :
    Except String Bool :=
  let period := match args.head? with
    | some a => pyLower a
    | none => "monthly"
  if period = "monthly" ∨ period = "weekly" ∨ period = "all" then
    .ok (!(st.transactions.filter (fun t => decide (t.user_id = u.id))).isEmpty)
  else
    .error "Invalid report period. Use \x27monthly\x27, \x27weekly\x27, or \x27all\x27."

/-- get_help_message from app.py. -/
def getHelpMessage : String :=
  "Here are the commands you can use:\n" ++
  "/income <amount> <category> [notes] - Record income\n" ++
  "/expense <amount> <category> [notes] - Record expense\n" ++
  "/addcategory <type> <name> - Add a new category (e.g., income Salary, expense Food)\n" ++
  "/editcategory <old_name> <new_name> <type> - Edit a category name\n" ++
  "/deletecategory <name> <type> - Delete a category\n" ++
  "/asset <amount> [notes] - Adjust your total assets (can be positive or negative)\n" ++
  "/delete <transaction_id> - Delete a specific transaction\n" ++
  "/report [monthly/weekly/all] - Get financial report\n" ++
  "/history [count] - Show recent transactions (default: 5)\n" ++
  "/listall - Show all transactions with IDs\n" ++
  "/summary - Show total income, expenses, and current assets\n" ++
  "/help - Show this help message"

/-- The command-token dispatch chain of the webhook in app.py. -/
def dispatch (st : DBState) (u : User) (cmd : String) (args : List String) :
    Except String (DBState × String) :=
  if cmd = "/income" then handleIncome st u args
  else if cmd = "/expense" then handleExpense st u args
  else if cmd = "/addcategory" then handleAddCategory st u args
  else if cmd = "/editcategory" then handleEditCategory st u args
  else if cmd = "/deletecategory" then handleDeleteCategory st u args
  else if cmd = "/asset" ∨ cmd = "/aset" then handleAssetAdjustment st u args
  else if cmd = "/delete" then handleDeleteTransaction st u args
  else if cmd = "/report" then
    match handleReportHasData st u args with
    | .ok true =>
      .ok (st, "Your report has been generated! (Note: Actual file download via WhatsApp requires further Twilio media API integration).")
    | .ok false => .ok (st, "No data to generate report for the selected period.")
    | .error e => .error e
  else if cmd = "/history" then handleHistory st u args
  else if cmd = "/summary" then .ok (handleSummary st u)
  else if cmd = "/listall" then handleListAllTransactions st u args
  else if cmd = "/help" then .ok (st, getHelpMessage)
  else .ok (st, "Unknown command. Type /help for available commands.")

/-- Processing of one inbound message by the webhook in app.py:
resolve-or-create the user (committed immediately), parse, dispatch.
A handler success commits the session; a ValueError rolls it back to the
post-user-creation state and prefixes Error; any other exception (here: the
IndexError of parse_command) rolls back and yields a generic message. -/
def processMessage (st : DBState) (fromNum body : String) : DBState × String :=
  match parseCommand body with
  | none =>
    ((getOrCreateUser st fromNum).1, "An internal error occurred. Please try again later.")
  | some pa =>
    match dispatch (getOrCreateUser st fromNum).1 (getOrCreateUser st fromNum).2 pa.1 pa.2 with
    | .ok r => r
    | .error msg => ((getOrCreateUser st fromNum).1, "Error: " ++ msg)

/-! Invariants and derived views stated over the embedding. -/

/-- Two category rows do not collide on the (user, name, type) triple. -/
def catDistinct (a b : Category) : Prop :=
  ¬(a.user_id = b.user_id ∧ a.name = b.name ∧ a.ty = b.ty)

instance (a b : Category) : Decidable (catDistinct a b) := by
  unfold catDistinct; infer_instance

/-- Uniqueness invariant of the category table: at most one row per
(user, name, type) triple. -/
def catInv (st : DBState) : Prop := st.categories.Pairwise catDistinct

/-- Primary keys of the transaction table are pairwise distinct. -/
def txIdsDistinct (st : DBState) : Prop :=
  st.transactions.Pairwise (fun a b => a.id ≠ b.id)

/-- Contribution of one transaction to net assets: income and adjustments
count positively, expenses negatively. -/
def signedAmount (t : Transaction) : ℚ :=
  match t.ty with
  | .income => t.amount
  | .expense => -t.amount
  | .asset_adjustment => t.amount

/-- Net assets of a user as a single signed pass over the ledger. -/
def signedTotal (st : DBState) (uid : Nat) : ℚ :=
  ((st.transactions.filter (fun t => decide (t.user_id = uid))).map signedAmount).sum

/-! Concrete fixtures used by the claim theorems and witnesses. -/

/-- A user row as created by the first inbound message of a fresh store. -/
def demoUser : User := ⟨1, "whatsapp:+1", 0⟩

/-- Store right after demoUser was created and committed. -/
def demoDB : DBState := ⟨[demoUser], [], [], 2, 1, 1, 1⟩

/-- Store reached from the empty store by recording income 1000, expense 300
and asset adjustment -50 for the same sender. -/
def c1State : DBState :=
  (processMessage (processMessage (processMessage emptyDB "whatsapp:+1"
    "/income 1000 salary").1 "whatsapp:+1" "/expense 300 food").1 "whatsapp:+1"
    "/asset -50").1

/-- Store with two income categories, food and drink, for demoUser. -/
def c3Cats : DBState :=
  ⟨[demoUser], [⟨1, 1, "food", .income, 0⟩, ⟨2, 1, "drink", .income, 0⟩], [], 2, 3, 1, 1⟩

/-- Category table state produced by renaming drink onto the taken name food. -/
def c3After : DBState :=
  ⟨[demoUser], [⟨1, 1, "food", .income, 0⟩, ⟨2, 1, "food", .income, 0⟩], [], 2, 3, 1, 1⟩

/-- A transaction row owned by a second user (id 2). -/
def c5Tx : Transaction := ⟨1, 2, .income, 100, none, none, 0, 0⟩

/-- Store holding user B (id 2) and one of their transactions, plus user A. -/
def c5DB : DBState :=
  ⟨[demoUser, ⟨2, "whatsapp:+2", 0⟩], [], [c5Tx], 3, 1, 2, 1⟩

/-- Income category with one linked transaction, for the /deletecategory
refusal claim. -/
def c6Cat : Category := ⟨1, 1, "food", .income, 0⟩

/-- Transaction referencing c6Cat. -/
def c6Tx : Transaction := ⟨1, 1, .income, 100, some 1, none, 0, 0⟩

/-- Store holding demoUser, c6Cat and c6Tx. -/
def c6DB : DBState := ⟨[demoUser], [c6Cat], [c6Tx], 2, 2, 2, 1⟩

/-- Store state actually produced by handle_income on the two parser fields
of the sample message: the verbatim remainder salary monthly pay becomes the
category name and notes stay empty. -/
def c7After : DBState :=
  ⟨[demoUser], [⟨1, 1, "salary monthly pay", .income, 1⟩],
   [⟨1, 1, .income, 500000, some 1, none, 2, 2⟩], 2, 2, 2, 3⟩

/-- Asset adjustment of -50 with the default notes, as stored by /asset. -/
def c9Tx : Transaction :=
  ⟨1, 1, .asset_adjustment, -50, none, some "Manual asset adjustment", 0, 0⟩

/-- Store holding demoUser and the negative asset adjustment c9Tx. -/
def c9DB : DBState := ⟨[demoUser], [], [c9Tx], 2, 1, 2, 1⟩


/-! Helper lemmas shared by the claim theorems. -/

/-- The parser splits into at most three fields. -/
theorem pySplitMax2_length_le (s : String) : (pySplitMax2 s).length ≤ 3 := by
  unfold pySplitMax2
  split
  · simp
  · split
    · simp
    · split
      · simp
      · simp

/-- Through parse_command a handler receives at most two arguments. -/
theorem parseCommand_args_le2 (s cmd : String) (args : List String)
    (h : parseCommand s = some (cmd, args)) : args.length ≤ 2 := by
  have hlen := pySplitMax2_length_le (pyStrip s)
  unfold parseCommand at h
  rcases hsp : pySplitMax2 (pyStrip s) with _ | ⟨c, rest⟩ <;>
    rw [hsp] at h <;> rw [hsp] at hlen
  · exact Option.noConfusion h
  · have h2 : (some (pyLower c, rest) : Option (String × List String)) = some (cmd, args) := h
    simp only [Option.some.injEq, Prod.mk.injEq] at h2
    obtain ⟨-, h3⟩ := h2
    subst h3
    simp only [List.length_cons] at hlen
    omega

/-- The invariant on categories only looks at the category table. -/
theorem catInv_congr (st' st : DBState) (h : st'.categories = st.categories)
    (hi : catInv st) : catInv st' := by
  unfold catInv at hi ⊢
  rw [h]
  exact hi

/-- Appending a category whose triple no existing row matches keeps the rows
pairwise distinct on (user, name, type). -/
theorem pairwise_snoc_fresh (cats : List Category) (uid : Nat) (nm : String)
    (ty : TransactionType) (cnew : Category)
    (hf : cats.find? (fun c => decide (c.user_id = uid ∧ c.name = nm ∧ c.ty = ty)) = none)
    (h1 : cnew.user_id = uid) (h2 : cnew.name = nm) (h3 : cnew.ty = ty)
    (hp : cats.Pairwise catDistinct) : (cats ++ [cnew]).Pairwise catDistinct := by
  rw [List.pairwise_append]
  refine ⟨hp, List.pairwise_singleton _ _, ?_⟩
  intro a ha b hb
  simp only [List.mem_singleton] at hb
  subst hb
  rw [List.find?_eq_none] at hf
  have ha2 := hf a ha
  simp only [decide_eq_true_eq] at ha2
  unfold catDistinct
  rw [h1, h2, h3]
  exact ha2

/-- The find-or-create step of income and expense preserves the category
uniqueness invariant. -/
theorem catInv_findOrCreateCategory (st : DBState) (uid : Nat) (nm : String)
    (ty : TransactionType) (hi : catInv st) :
    catInv (findOrCreateCategory st uid nm ty).1 := by
  rcases hf : st.categories.find?
      (fun c => decide (c.user_id = uid ∧ c.name = nm ∧ c.ty = ty)) with _ | c
  · have he : (findOrCreateCategory st uid nm ty).1.categories =
        st.categories ++ [⟨st.nextCategoryId, uid, nm, ty, st.clock⟩] := by
      unfold findOrCreateCategory
      rw [hf]
    unfold catInv
    rw [he]
    exact pairwise_snoc_fresh st.categories uid nm ty
      ⟨st.nextCategoryId, uid, nm, ty, st.clock⟩ hf rfl rfl rfl hi
  · have he : (findOrCreateCategory st uid nm ty).1 = st := by
      unfold findOrCreateCategory
      rw [hf]
    rw [he]
    exact hi

/-- handle_income preserves the category uniqueness invariant. -/
theorem catInv_handleIncome (st st' : DBState) (u : User) (args : List String)
    (r : String) (h : handleIncome st u args = .ok (st', r)) (hi : catInv st) :
    catInv st' := by
  rcases args with _ | ⟨a0, _ | ⟨a1, rest⟩⟩
  · exact Except.noConfusion h
  · exact Except.noConfusion h
  · simp only [handleIncome] at h
    split at h
    · exact Except.noConfusion h
    · split at h
      · exact Except.noConfusion h
      · simp only [Except.ok.injEq, Prod.mk.injEq] at h
        obtain ⟨h1, -⟩ := h
        subst h1
        exact catInv_congr _ _ rfl
          (catInv_findOrCreateCategory st u.id (pyLower a1) TransactionType.income hi)

/-- handle_expense preserves the category uniqueness invariant. -/
theorem catInv_handleExpense (st st' : DBState) (u : User) (args : List String)
    (r : String) (h : handleExpense st u args = .ok (st', r)) (hi : catInv st) :
    catInv st' := by
  rcases args with _ | ⟨a0, _ | ⟨a1, rest⟩⟩
  · exact Except.noConfusion h
  · exact Except.noConfusion h
  · simp only [handleExpense] at h
    split at h
    · exact Except.noConfusion h
    · split at h
      · exact Except.noConfusion h
      · simp only [Except.ok.injEq, Prod.mk.injEq] at h
        obtain ⟨h1, -⟩ := h
        subst h1
        exact catInv_congr _ _ rfl
          (catInv_findOrCreateCategory st u.id (pyLower a1) TransactionType.expense hi)

/-- handle_add_category preserves the category uniqueness invariant. -/
theorem catInv_handleAddCategory (st st' : DBState) (u : User) (args : List String)
    (r : String) (h : handleAddCategory st u args = .ok (st', r)) (hi : catInv st) :
    catInv st' := by
  rcases args with _ | ⟨a0, _ | ⟨a1, rest⟩⟩
  · exact Except.noConfusion h
  · exact Except.noConfusion h
  · simp only [handleAddCategory] at h
    split at h
    · exact Except.noConfusion h
    · split at h
      · simp only [Except.ok.injEq, Prod.mk.injEq] at h
        obtain ⟨h1, -⟩ := h
        subst h1
        exact hi
      · rename_i hf
        simp only [Except.ok.injEq, Prod.mk.injEq] at h
        obtain ⟨h1, -⟩ := h
        subst h1
        unfold catInv at hi ⊢
        exact pairwise_snoc_fresh st.categories u.id (pyLower a1) _ _ hf rfl rfl rfl hi

/-- handle_delete_category preserves the category uniqueness invariant. -/
theorem catInv_handleDeleteCategory (st st' : DBState) (u : User) (args : List String)
    (r : String) (h : handleDeleteCategory st u args = .ok (st', r)) (hi : catInv st) :
    catInv st' := by
  rcases args with _ | ⟨a0, _ | ⟨a1, rest⟩⟩
  · exact Except.noConfusion h
  · exact Except.noConfusion h
  · simp only [handleDeleteCategory] at h
    split at h
    · exact Except.noConfusion h
    · split at h
      · simp only [Except.ok.injEq, Prod.mk.injEq] at h
        obtain ⟨h1, -⟩ := h
        subst h1
        exact hi
      · split at h
        · simp only [Except.ok.injEq, Prod.mk.injEq] at h
          obtain ⟨h1, -⟩ := h
          subst h1
          exact hi
        · simp only [Except.ok.injEq, Prod.mk.injEq] at h
          obtain ⟨h1, -⟩ := h
          subst h1
          unfold catInv at hi ⊢
          exact List.Pairwise.sublist (List.filter_sublist _) hi

/-- handle_asset_adjustment never touches the category table. -/
theorem handleAsset_categories (st st' : DBState) (u : User) (args : List String)
    (r : String) (h : handleAssetAdjustment st u args = .ok (st', r)) :
    st'.categories = st.categories := by
  rcases args with _ | ⟨a0, rest⟩
  · exact Except.noConfusion h
  · simp only [handleAssetAdjustment] at h
    split at h
    · exact Except.noConfusion h
    · simp only [Except.ok.injEq, Prod.mk.injEq] at h
      obtain ⟨h1, -⟩ := h
      subst h1
      rfl

/-- handle_delete_transaction never touches the category table. -/
theorem handleDeleteTx_categories (st st' : DBState) (u : User) (args : List String)
    (r : String) (h : handleDeleteTransaction st u args = .ok (st', r)) :
    st'.categories = st.categories := by
  rcases args with _ | ⟨a0, rest⟩
  · exact Except.noConfusion h
  · simp only [handleDeleteTransaction] at h
    split at h
    · exact Except.noConfusion h
    · split at h <;>
        simp only [Except.ok.injEq, Prod.mk.injEq] at h <;>
        obtain ⟨h1, -⟩ := h <;>
        subst h1 <;>
        rfl

/-- handle_list_all_transactions never changes the store. -/
theorem handleListAll_state (st st' : DBState) (u : User) (args : List String)
    (r : String) (h : handleListAllTransactions st u args = .ok (st', r)) :
    st' = st := by
  simp only [handleListAllTransactions] at h
  split at h
  · simp only [Except.ok.injEq, Prod.mk.injEq] at h
    exact h.1.symm
  · split at h <;>
      simp only [Except.ok.injEq, Prod.mk.injEq] at h <;>
      exact h.1.symm

/-- handle_history never changes the store. -/
theorem handleHistory_state (st st' : DBState) (u : User) (args : List String)
    (r : String) (h : handleHistory st u args = .ok (st', r)) :
    st' = st := by
  simp only [handleHistory] at h
  split at h
  · simp only [Except.ok.injEq, Prod.mk.injEq] at h
    exact h.1.symm
  · split at h <;>
      simp only [Except.ok.injEq, Prod.mk.injEq] at h <;>
      exact h.1.symm

/-- With the at-most-two arguments the parser can produce,
handle_edit_category always fails with its usage message. -/
theorem handleEditCategory_short (st : DBState) (u : User) (args : List String)
    (h : args.length ≤ 2) :
    handleEditCategory st u args =
      .error "Usage: /editcategory <old_name> <new_name> <type (income/expense)>" := by
  rcases args with _ | ⟨a, _ | ⟨b, _ | ⟨c, t⟩⟩⟩
  · rfl
  · rfl
  · rfl
  · simp only [List.length_cons] at h
    omega

/-- get_or_create_user never touches the category table. -/
theorem getOrCreateUser_categories (st : DBState) (num : String) :
    (getOrCreateUser st num).1.categories = st.categories := by
  unfold getOrCreateUser
  rcases hf : st.users.find? (fun u => decide (u.whatsapp_number = num)) with _ | u <;>
    rw [hf]

set_option maxHeartbeats 1600000 in
/-- Dispatch of any parser-produced command preserves the category
uniqueness invariant. -/
theorem catInv_dispatch (st st' : DBState) (u : User) (cmd : String)
    (args : List String) (r : String) (hlen : args.length ≤ 2)
    (h : dispatch st u cmd args = .ok (st', r)) (hi : catInv st) : catInv st' := by
  unfold dispatch at h
  by_cases h1 : cmd = "/income"
  · rw [if_pos h1] at h
    exact catInv_handleIncome st st' u args r h hi
  rw [if_neg h1] at h
  by_cases h2 : cmd = "/expense"
  · rw [if_pos h2] at h
    exact catInv_handleExpense st st' u args r h hi
  rw [if_neg h2] at h
  by_cases h3 : cmd = "/addcategory"
  · rw [if_pos h3] at h
    exact catInv_handleAddCategory st st' u args r h hi
  rw [if_neg h3] at h
  by_cases h4 : cmd = "/editcategory"
  · rw [if_pos h4] at h
    rw [handleEditCategory_short st u args hlen] at h
    exact Except.noConfusion h
  rw [if_neg h4] at h
  by_cases h5 : cmd = "/deletecategory"
  · rw [if_pos h5] at h
    exact catInv_handleDeleteCategory st st' u args r h hi
  rw [if_neg h5] at h
  by_cases h6 : cmd = "/asset" ∨ cmd = "/aset"
  · rw [if_pos h6] at h
    exact catInv_congr st' st (handleAsset_categories st st' u args r h) hi
  rw [if_neg h6] at h
  by_cases h7 : cmd = "/delete"
  · rw [if_pos h7] at h
    exact catInv_congr st' st (handleDeleteTx_categories st st' u args r h) hi
  rw [if_neg h7] at h
  by_cases h8 : cmd = "/report"
  · rw [if_pos h8] at h
    split at h
    · simp only [Except.ok.injEq, Prod.mk.injEq] at h
      exact catInv_congr st' st (by rw [← h.1]) hi
    · simp only [Except.ok.injEq, Prod.mk.injEq] at h
      exact catInv_congr st' st (by rw [← h.1]) hi
    · exact Except.noConfusion h
  rw [if_neg h8] at h
  by_cases h9 : cmd = "/history"
  · rw [if_pos h9] at h
    exact catInv_congr st' st (by rw [handleHistory_state st st' u args r h]) hi
  rw [if_neg h9] at h
  by_cases h10 : cmd = "/summary"
  · rw [if_pos h10] at h
    simp only [Except.ok.injEq] at h
    have hst : st' = st := (congrArg Prod.fst h).symm
    exact catInv_congr st' st (by rw [hst]) hi
  rw [if_neg h10] at h
  by_cases h11 : cmd = "/listall"
  · rw [if_pos h11] at h
    exact catInv_congr st' st (by rw [handleListAll_state st st' u args r h]) hi
  rw [if_neg h11] at h
  by_cases h12 : cmd = "/help"
  · rw [if_pos h12] at h
    simp only [Except.ok.injEq, Prod.mk.injEq] at h
    exact catInv_congr st' st (by rw [← h.1]) hi
  rw [if_neg h12] at h
  simp only [Except.ok.injEq, Prod.mk.injEq] at h
  exact catInv_congr st' st (by rw [← h.1]) hi

/-- Processing any inbound message preserves the category uniqueness
invariant. -/
theorem catInv_processMessage (st : DBState) (num body : String) (hi : catInv st) :
    catInv (processMessage st num body).1 := by
  have hg : catInv (getOrCreateUser st num).1 :=
    catInv_congr _ _ (getOrCreateUser_categories st num) hi
  rcases hpc : parseCommand body with _ | ⟨cmd, args⟩
  · have he : processMessage st num body =
        ((getOrCreateUser st num).1, "An internal error occurred. Please try again later.") := by
      unfold processMessage
      rw [hpc]
    rw [he]
    exact hg
  · have hlen := parseCommand_args_le2 body cmd args hpc
    have he : processMessage st num body =
        match dispatch (getOrCreateUser st num).1 (getOrCreateUser st num).2 cmd args with
        | .ok r2 => r2
        | .error msg => ((getOrCreateUser st num).1, "Error: " ++ msg) := by
      unfold processMessage
      rw [hpc]
    rw [he]
    rcases hd : dispatch (getOrCreateUser st num).1 (getOrCreateUser st num).2 cmd args
        with msg | ⟨st2, reply⟩
    · exact hg
    · exact catInv_dispatch _ _ _ _ _ _ hlen hd hg

/-- Splitting the per-type sums of handle_summary recombines into one signed
pass over the ledger. -/
theorem sumAmounts_signed_split (l : List Transaction) (uid : Nat) :
    sumAmounts l uid TransactionType.income - sumAmounts l uid TransactionType.expense +
      sumAmounts l uid TransactionType.asset_adjustment =
    ((l.filter (fun t => decide (t.user_id = uid))).map signedAmount).sum := by
  induction l with
  | nil => simp [sumAmounts]
  | cons t l ih =>
    by_cases hu : t.user_id = uid
    · cases hty : t.ty <;>
        simp [sumAmounts, List.filter_cons, hu, hty, signedAmount] at ih ⊢ <;>
        linarith [ih]
    · simp [sumAmounts, List.filter_cons, hu] at ih ⊢
      linarith [ih]

/-- handle_delete_transaction replies not-found and leaves the store alone
whenever no transaction both carries the parsed id and belongs to the
caller. -/
theorem handleDeleteTransaction_notfound (st : DBState) (uA : User) (s : String)
    (tid : Int) (hs : parseInt s = some tid)
    (hfind : st.transactions.find?
      (fun t => decide ((t.id : Int) = tid ∧ t.user_id = uA.id)) = none) :
    handleDeleteTransaction st uA [s] =
      .ok (st, "Transaction with ID " ++ toString tid ++
        " not found or doesn\x27t belong to you.\nUse /listall to see your transactions.") := by
  simp only [handleDeleteTransaction]
  split
  · rename_i heq
    rw [hs] at heq
    exact Option.noConfusion heq
  · rename_i tid2 heq
    rw [hs] at heq
    injection heq with heq2
    subst heq2
    split
    · rfl
    · rename_i t heq3
      rw [hfind] at heq3
      exact Option.noConfusion heq3

/-! Claim theorems.  The concrete-evaluation proofs below reduce rational
arithmetic with decide, which requires lifting the irreducibility marks that
Batteries puts on the Rat operations. -/

set_option maxHeartbeats 4000000

set_option maxRecDepth 8000

unseal Rat.add Rat.sub Rat.mul Rat.inv in
/-- C1: handle_summary computes current net assets as the income total minus
the expense total plus the asset-adjustment total (equivalently a single
signed pass over the ledger), and after income 1000, expense 300 and
adjustment -50 the /summary reply reports current assets 650. -/
theorem C1_summary_net_assets :
    (∀ (st : DBState) (uid : Nat), currentAssets st uid = signedTotal st uid) ∧
    currentAssets c1State 1 = 650 ∧
    (processMessage c1State "whatsapp:+1" "/summary").2 =
      "Financial Summary for whatsapp:+1:\n• Total Income: Rp1,000.00\n• Total Expenses: Rp300.00\n• Current Net Assets: Rp650.00" := by
  refine ⟨?_, by decide, by decide⟩
  intro st uid
  exact sumAmounts_signed_split st.transactions uid

/-- C2 counterexample: a whitespace-only message does not yield an empty
command from parse_command; the parser fails (the IndexError branch, modelled
as none) and the webhook replies with the generic internal-error message. -/
theorem C2_counterexample_blank_parse :
    parseCommand "   " = none ∧
    parseCommand "   " ≠ some ("", []) ∧
    (processMessage emptyDB "whatsapp:+1" "   ").2 =
      "An internal error occurred. Please try again later." := by
  refine ⟨by decide, by decide, by decide⟩

/-- C2 amended: for every message text that is empty after trimming, the
command parser fails with an IndexError (modelled as none) instead of
returning an empty command, and the dispatch loop turns this into the generic
internal-error reply. -/
theorem C2_amended_blank_input (s : String) (h : pyStrip s = "") :
    parseCommand s = none ∧
    ∀ (st : DBState) (num : String), (processMessage st num s).2 =
      "An internal error occurred. Please try again later." := by
  have hp : parseCommand s = none := by
    unfold parseCommand
    rw [h]
    rfl
  refine ⟨hp, ?_⟩
  intro st num
  unfold processMessage
  rw [hp]

/-- Closed instance of the amended C2 statement at a whitespace-only input. -/
theorem C2_amended_blank_input_witness :
    parseCommand "   " = none ∧
    (processMessage emptyDB "whatsapp:+1" "   ").2 =
      "An internal error occurred. Please try again later." :=
  ⟨(C2_amended_blank_input "   " (by decide)).1,
   (C2_amended_blank_input "   " (by decide)).2 emptyDB "whatsapp:+1"⟩

/-- C3 counterexample: handle_edit_category renames drink onto the already
taken name food, leaving two category rows with the same (user, name, type)
triple, so the edit handler does not preserve the uniqueness invariant. -/
theorem C3_counterexample_edit_duplicate :
    handleEditCategory c3Cats demoUser ["drink", "food", "income"] =
      .ok (c3After, "Category \x27drink\x27 (income) renamed to \x27food\x27.") ∧
    c3After.categories.countP
      (fun c => decide (c.user_id = 1 ∧ c.name = "food" ∧ c.ty = TransactionType.income)) = 2 ∧
    ¬ catInv c3After := by
  refine ⟨by rfl, by rfl, ?_⟩
  intro hcontra
  have hp : List.Pairwise catDistinct
      [(⟨1, 1, "food", TransactionType.income, 0⟩ : Category),
       ⟨2, 1, "food", TransactionType.income, 0⟩] := hcontra
  rcases List.pairwise_cons.mp hp with ⟨hall, -⟩
  exact hall ⟨2, 1, "food", TransactionType.income, 0⟩
    (List.mem_singleton.mpr rfl) ⟨rfl, rfl, rfl⟩

/-- C3 amended: the check-then-insert handlers (/addcategory, /income,
/expense) and the guarded delete preserve the category uniqueness invariant,
and every message processed through the webhook preserves it (the parser
yields at most two arguments, so /editcategory always fails its length check
there); but handle_edit_category itself, given three arguments, can rename a
category onto an existing triple and break the invariant. -/
theorem C3_amended_category_uniqueness :
    (∀ (st : DBState) (u : User) (args : List String) (st' : DBState) (r : String),
      handleAddCategory st u args = .ok (st', r) → catInv st → catInv st') ∧
    (∀ (st : DBState) (u : User) (args : List String) (st' : DBState) (r : String),
      handleIncome st u args = .ok (st', r) → catInv st → catInv st') ∧
    (∀ (st : DBState) (u : User) (args : List String) (st' : DBState) (r : String),
      handleExpense st u args = .ok (st', r) → catInv st → catInv st') ∧
    (∀ (st : DBState) (u : User) (args : List String) (st' : DBState) (r : String),
      handleDeleteCategory st u args = .ok (st', r) → catInv st → catInv st') ∧
    (∀ (st : DBState) (u : User) (args : List String), args.length ≤ 2 →
      handleEditCategory st u args =
        .error "Usage: /editcategory <old_name> <new_name> <type (income/expense)>") ∧
    (∀ (st : DBState) (num body : String), catInv st →
      catInv (processMessage st num body).1) :=
  ⟨fun st u args st' r h hi => catInv_handleAddCategory st st' u args r h hi,
   fun st u args st' r h hi => catInv_handleIncome st st' u args r h hi,
   fun st u args st' r h hi => catInv_handleExpense st st' u args r h hi,
   fun st u args st' r h hi => catInv_handleDeleteCategory st st' u args r h hi,
   fun st u args h => handleEditCategory_short st u args h,
   fun st num body hi => catInv_processMessage st num body hi⟩

/-- Closed instance of the amended C3 statement on concrete stores. -/
theorem C3_amended_category_uniqueness_witness :
    catInv (processMessage emptyDB "whatsapp:+1" "/addcategory income food").1 ∧
    handleEditCategory emptyDB demoUser ["a", "b"] =
      .error "Usage: /editcategory <old_name> <new_name> <type (income/expense)>" :=
  ⟨C3_amended_category_uniqueness.2.2.2.2.2 emptyDB "whatsapp:+1"
     "/addcategory income food" List.Pairwise.nil,
   C3_amended_category_uniqueness.2.2.2.2.1 emptyDB demoUser ["a", "b"] (by decide)⟩

/-- C4 counterexample: a validation failure from an unseen sender still
leaves the freshly created user row in the store, because get_or_create_user
commits it before the handler runs; the stores are not exactly as they were
before the message. -/
theorem C4_counterexample_committed_user :
    (processMessage emptyDB "whatsapp:+1" "/income abc food").2 =
      "Error: Invalid amount. Please provide a number." ∧
    (processMessage emptyDB "whatsapp:+1" "/income abc food").1 ≠ emptyDB ∧
    (processMessage emptyDB "whatsapp:+1" "/income abc food").1.users.length = 1 := by
  refine ⟨by decide, by decide, by decide⟩

/-- C4 amended: on a validation failure the dispatch loop replies with Error
plus the message and rolls the session back, so the persisted state is
exactly the state right after get_or_create_user committed — identical to the
pre-message state whenever the sender already existed, but containing one new
user row when the sender was unseen. -/
theorem C4_amended_rollback (st : DBState) (fromNum body cmd : String)
    (args : List String) (msg : String)
    (hparse : parseCommand body = some (cmd, args))
    (hdisp : dispatch (getOrCreateUser st fromNum).1 (getOrCreateUser st fromNum).2
      cmd args = .error msg) :
    processMessage st fromNum body = ((getOrCreateUser st fromNum).1, "Error: " ++ msg) ∧
    (∀ u : User, u ∈ st.users → u.whatsapp_number = fromNum →
      (getOrCreateUser st fromNum).1 = st) := by
  constructor
  · have he : processMessage st fromNum body =
        match dispatch (getOrCreateUser st fromNum).1 (getOrCreateUser st fromNum).2
            cmd args with
        | .ok r2 => r2
        | .error m => ((getOrCreateUser st fromNum).1, "Error: " ++ m) := by
      unfold processMessage
      rw [hparse]
    rw [he, hdisp]
  · intro u hmem hnum
    have hsome : (st.users.find? (fun v => decide (v.whatsapp_number = fromNum))).isSome := by
      rw [List.find?_isSome]
      exact ⟨u, hmem, by simp [hnum]⟩
    unfold getOrCreateUser
    rcases hf : st.users.find? (fun v => decide (v.whatsapp_number = fromNum)) with _ | w
    · rw [hf] at hsome
      exact absurd hsome (by simp)
    · rw [hf]

/-- Closed instance of the amended C4 statement: rollback to the committed
user for a fresh sender, and an unchanged store for a known sender. -/
theorem C4_amended_rollback_witness :
    processMessage emptyDB "whatsapp:+1" "/income abc food" =
      ((getOrCreateUser emptyDB "whatsapp:+1").1,
       "Error: " ++ "Invalid amount. Please provide a number.") ∧
    (getOrCreateUser demoDB "whatsapp:+1").1 = demoDB :=
  ⟨(C4_amended_rollback emptyDB "whatsapp:+1" "/income abc food" "/income"
      ["abc", "food"] "Invalid amount. Please provide a number." (by decide) (by rfl)).1,
   (C4_amended_rollback demoDB "whatsapp:+1" "/income abc food" "/income"
      ["abc", "food"] "Invalid amount. Please provide a number." (by decide) (by rfl)).2
     demoUser (by decide) (by decide)⟩

/-- C5: /delete with the id of a transaction owned by a different user
replies not-found and deletes nothing: the store is unchanged and the other
user's row is still present. -/
theorem C5_delete_other_user (st : DBState) (uA : User) (tx : Transaction)
    (s : String) (hdist : txIdsDistinct st) (hmem : tx ∈ st.transactions)
    (hown : tx.user_id ≠ uA.id) (hs : parseInt s = some (tx.id : Int)) :
    handleDeleteTransaction st uA [s] =
      .ok (st, "Transaction with ID " ++ toString (tx.id : Int) ++
        " not found or doesn\x27t belong to you.\nUse /listall to see your transactions.") ∧
    tx ∈ st.transactions := by
  refine ⟨?_, hmem⟩
  refine handleDeleteTransaction_notfound st uA s (tx.id : Int) hs ?_
  rw [List.find?_eq_none]
  intro t ht hpt
  simp only [decide_eq_true_eq] at hpt
  have hid : t.id = tx.id := by exact_mod_cast hpt.1
  by_cases heq : t = tx
  · subst heq
    exact hown hpt.2
  · have hsym : Symmetric (fun a b : Transaction => a.id ≠ b.id) := by
      intro a b hab hba
      exact hab hba.symm
    exact hdist.forall hsym ht hmem heq hid

/-- Closed instance of C5 on a two-user store. -/
theorem C5_delete_other_user_witness :
    handleDeleteTransaction c5DB demoUser ["1"] =
      .ok (c5DB, "Transaction with ID " ++ toString ((1 : Nat) : Int) ++
        " not found or doesn\x27t belong to you.\nUse /listall to see your transactions.") ∧
    c5Tx ∈ c5DB.transactions :=
  C5_delete_other_user c5DB demoUser c5Tx "1"
    (by simp [txIdsDistinct, c5DB]) (by decide) (by decide) (by decide)

/-- C6: /deletecategory on a category with at least one linked transaction
returns the refusal message and leaves the store untouched: the category row
and every transaction referencing it survive. -/
theorem C6_deletecategory_refusal (st : DBState) (u : User) (cat : Category)
    (nameArg tyArg : String) (tx : Transaction)
    (hname : pyLower nameArg = cat.name)
    (hty : parseCategoryType (pyLower tyArg) = some cat.ty)
    (hfind : st.categories.find?
      (fun c => decide (c.user_id = u.id ∧ c.name = cat.name ∧ c.ty = cat.ty)) = some cat)
    (hmem : tx ∈ st.transactions) (href : tx.category_id = some cat.id) :
    handleDeleteCategory st u [nameArg, tyArg] =
      .ok (st, "Cannot delete category \x27" ++ cat.name ++
        "\x27 as it has existing transactions linked. " ++
        "Please reassign or delete linked transactions first.") := by
  simp only [handleDeleteCategory]
  rw [hname]
  split
  · rename_i heq
    rw [hty] at heq
    exact Option.noConfusion heq
  · rename_i catTy heq
    rw [hty] at heq
    injection heq with heq2
    subst heq2
    split
    · rename_i heq3
      rw [hfind] at heq3
      exact Option.noConfusion heq3
    · rename_i category heq3
      rw [hfind] at heq3
      injection heq3 with heq4
      subst heq4
      split
      · rfl
      · rename_i heq5
        rw [List.find?_eq_none] at heq5
        exact absurd (by simp [href]) (heq5 tx hmem)

/-- Closed instance of C6 on a store with one linked transaction. -/
theorem C6_deletecategory_refusal_witness :
    handleDeleteCategory c6DB demoUser ["food", "income"] =
      .ok (c6DB, "Cannot delete category \x27food\x27 as it has existing transactions linked. Please reassign or delete linked transactions first.") :=
  C6_deletecategory_refusal c6DB demoUser c6Cat "food" "income" c6Tx
    (by decide) (by decide) (by decide) (by decide) (by decide)

unseal Rat.add Rat.sub Rat.mul Rat.inv in
/-- C7 counterexample: on the sample message the income handler does not
record category salary with notes monthly pay; the verbatim third parser
field arrives as the single category argument, so the stored category is
named salary monthly pay and the notes column stays empty. -/
theorem C7_counterexample_notes_merged :
    handleIncome demoDB demoUser ["500000", "salary monthly pay"] =
      .ok (c7After,
        "Income recorded: Rp500,000.00 for \x27salary monthly pay\x27. Notes: None.") ∧
    c7After.categories.map Category.name = ["salary monthly pay"] ∧
    c7After.transactions.map Transaction.notes = [none] := by
  refine ⟨by rfl, by rfl, by rfl⟩

unseal Rat.add Rat.sub Rat.mul Rat.inv in
/-- C7 amended: the parser splits into at most a command plus two argument
fields, the third staying verbatim, and on the sample message yields
/income with ["500000", "salary monthly pay"]; the income handler then
records amount 500000 under the category named salary monthly pay with no
notes, because the verbatim remainder reaches the handler as the category
argument and a third handler argument never arrives through the parser. -/
theorem C7_amended_parser_three_fields :
    (∀ (s cmd : String) (args : List String),
      parseCommand s = some (cmd, args) → args.length ≤ 2) ∧
    parseCommand "/income 500000 salary monthly pay" =
      some ("/income", ["500000", "salary monthly pay"]) ∧
    handleIncome demoDB demoUser ["500000", "salary monthly pay"] =
      .ok (c7After,
        "Income recorded: Rp500,000.00 for \x27salary monthly pay\x27. Notes: None.") := by
  refine ⟨parseCommand_args_le2, by decide, by rfl⟩

/-- Closed instance of the amended C7 parser bound at the sample message. -/
theorem C7_amended_parser_three_fields_witness :
    (["500000", "salary monthly pay"] : List String).length ≤ 2 :=
  C7_amended_parser_three_fields.1 "/income 500000 salary monthly pay" "/income"
    ["500000", "salary monthly pay"] C7_amended_parser_three_fields.2.1

/-- C8: /listall defaults its limit to 20, clamps numeric limits above 100
down to 100 (so at most 100 rows are ever shown), and answers non-numeric or
non-positive limits with the invalid-limit reply instead of an error. -/
theorem C8_listall_limits :
    resolveListAllLimit [] = some 20 ∧
    (∀ (s : String) (rest : List String) (l : Int),
      parseInt s = some l → 100 < l → resolveListAllLimit (s :: rest) = some 100) ∧
    (∀ (st : DBState) (uid n : Nat), (listAllRows st uid n).length ≤ n) ∧
    (∀ (st : DBState) (u : User) (s : String) (rest : List String),
      parseInt s = none ∨ (∃ l, parseInt s = some l ∧ l ≤ 0) →
      handleListAllTransactions st u (s :: rest) =
        .ok (st, "Invalid limit. Please provide a number (max 100).")) := by
  refine ⟨rfl, ?_, ?_, ?_⟩
  · intro s rest l hp hl
    simp only [resolveListAllLimit]
    split
    · rename_i heq
      rw [hp] at heq
      exact Option.noConfusion heq
    · rename_i l2 heq
      rw [hp] at heq
      injection heq with heq2
      subst heq2
      rw [if_neg (by omega), if_pos hl]
  · intro st uid n
    unfold listAllRows
    exact List.length_take_le _ _
  · intro st u s rest h
    simp only [handleListAllTransactions, resolveListAllLimit]
    split
    · rfl
    · rename_i limit heq
      rcases h with hn | ⟨l, hp, hl⟩
      · rw [hn] at heq
        exact Option.noConfusion heq
      · rw [hp] at heq
        have heq2 : (if l ≤ 0 then (none : Option Nat)
            else if 100 < l then some 100 else some l.toNat) = some limit := heq
        rw [if_pos hl] at heq2
        exact Option.noConfusion heq2

/-- Closed instance of C8: clamped limit, invalid-limit reply, row bound. -/
theorem C8_listall_limits_witness :
    resolveListAllLimit ["500"] = some 100 ∧
    handleListAllTransactions demoDB demoUser ["abc"] =
      .ok (demoDB, "Invalid limit. Please provide a number (max 100).") ∧
    (listAllRows demoDB 1 100).length ≤ 100 :=
  ⟨C8_listall_limits.2.1 "500" [] 500 (by decide) (by decide),
   C8_listall_limits.2.2.2 demoDB demoUser "abc" [] (Or.inl (by decide)),
   C8_listall_limits.2.2.1 demoDB 1 100⟩

unseal Rat.add Rat.sub Rat.mul Rat.inv in
/-- C9: the /listall amount column prefixes income and asset_adjustment rows
with a plus and expense rows with a minus around the stored value, so a
negative asset adjustment renders with both signs, as in +Rp-50 — reproduced
literally in the full reply. -/
theorem C9_listall_sign_rendering :
    (∀ t : Transaction,
      t.ty = TransactionType.income ∨ t.ty = TransactionType.asset_adjustment →
      listAllAmount t = "+Rp" ++ pyFormatComma 0 t.amount) ∧
    (∀ t : Transaction, t.ty = TransactionType.expense →
      listAllAmount t = "-Rp" ++ pyFormatComma 0 t.amount) ∧
    listAllAmount c9Tx = "+Rp-50" ∧
    handleListAllTransactions c9DB demoUser [] =
      .ok (c9DB, "📋 All Transactions (showing last 1):\n" ++ eqRow ++
        "\nID:1 | 0 | +Rp-50 | Manual asset adjustm...\n" ++ eqRow ++
        "\n💡 Use /delete <ID> to delete a transaction") := by
  refine ⟨?_, ?_, by rfl, by rfl⟩
  · intro t h
    unfold listAllAmount
    rw [if_pos h]
  · intro t h
    unfold listAllAmount
    rw [if_neg (by simp [h])]

/-- Closed instance of the C9 sign rule at the negative adjustment. -/
theorem C9_listall_sign_rendering_witness :
    listAllAmount c9Tx = "+Rp" ++ pyFormatComma 0 c9Tx.amount :=
  C9_listall_sign_rendering.1 c9Tx (Or.inr rfl)

/-- C10: the dispatcher treats the undocumented token /aset exactly like
/asset: both route every argument list to the asset-adjustment handler, with
identical state change and reply. -/
theorem C10_aset_alias (st : DBState) (u : User) (args : List String) :
    dispatch st u "/aset" args = handleAssetAdjustment st u args ∧
    dispatch st u "/asset" args = handleAssetAdjustment st u args := by
  constructor <;> rfl

end FinanceBot
